import Mathlib

/-!
Byte-stream model of the APA102 LED driver (`src/apa102.h`, which carries the
header, `apa102.c` and the README of the repository).

Every driver function only ever calls `spi_transfer` on a sequence of bytes;
we model each function as the list of bytes it hands to `spi_transfer`, in
order.  Bytes are natural numbers; a `% 256` is inserted exactly where the C
code converts a value to `unsigned char`.  The compile-time configuration
macros `APA102_NUMBER_OF_LEDS` and `APA102_FRAME_SIZE` become explicit
parameters `N` and `fs`; the `#ifdef APA102_POWER_SAVING_AVAILABLE` build
switch becomes an explicit boolean parameter `ps`.  The C loops use an
`unsigned char` counter, so the `List.replicate` translation of a loop is
faithful for bounds below 256; theorems about looped output therefore carry
`N < 256` / `fs < 256` hypotheses.
-/

namespace APA102

/-- Modelled from the spec: the type `GFX_RGBA_Color` lives in
`shared/gfx/color.h`, a separate repository that is not part of this one.
The spec's data model section defines the color as
`{red: byte, green: byte, blue: byte, intensity: byte}` with the intensity
(called `alpha` by the driver code) as the fourth field, and the README
example initialises it positionally with the intensity last.  A C compound
literal `{a, b, c, d}` therefore sets `red = a`, `green = b`, `blue = c`,
`alpha = d`. -/
structure GFX_RGBA_Color where
  red : Nat
  green : Nat
  blue : Nat
  alpha : Nat
deriving Repr, DecidableEq

/-- All four fields are in the byte range, as they are for any C value of the
struct (whose fields are `unsigned char`). -/
def ColorBytes (c : GFX_RGBA_Color) : Prop :=
  c.red < 256 ∧ c.green < 256 ∧ c.blue < 256 ∧ c.alpha < 256

instance (c : GFX_RGBA_Color) : Decidable (ColorBytes c) := by
  unfold ColorBytes; infer_instance

/-- Configuration macro `APA102_NUMBER_OF_LEDS`, default value. -/
def APA102_NUMBER_OF_LEDS : Nat := 1

/-- Configuration macro `APA102_FRAME_SIZE`, default value. -/
def APA102_FRAME_SIZE : Nat := 4

/-- Configuration macro `APA102_START_FLAG`, default value. -/
def APA102_START_FLAG : Nat := 0xE0

/-- Configuration macro `APA102_SOF_VALUE`, default value. -/
def APA102_SOF_VALUE : Nat := 0x00

/-- Configuration macro `APA102_EOF_VALUE`, default value. -/
def APA102_EOF_VALUE : Nat := 0xFF

/-- Configuration macro `APA102_MIN_INTENSITY`, default value. -/
def APA102_MIN_INTENSITY : Nat := 0x01

/-- Configuration macro `APA102_MAX_INTENSITY`, default value. -/
def APA102_MAX_INTENSITY : Nat := 0x1F

/-- Configuration macro `APA102_ENABLE_FLAG`, default value. -/
def APA102_ENABLE_FLAG : Nat := 0xE0

/-- Configuration macro `APA102_SLEEP_FLAG`, default value. -/
def APA102_SLEEP_FLAG : Nat := 0xA0

/-- The `enum APA102_Transmission_t` frame types. -/
inductive APA102_Transmission where
  | SOF
  | EOF
deriving Repr, DecidableEq

/-- The numeric value of each enumerator
(`APA102_Transmission_SOF = APA102_SOF_VALUE`,
`APA102_Transmission_EOF = APA102_EOF_VALUE`). -/
def APA102_Transmission.value : APA102_Transmission → Nat
  | .SOF => APA102_SOF_VALUE
  | .EOF => APA102_EOF_VALUE

/-- `static void apa102_frame(unsigned char flag, const GFX_RGBA_Color *color)`:
sends `flag | (color->alpha & APA102_MAX_INTENSITY)`, then `color->blue`,
`color->green`, `color->red`. -/
def apa102_frame (flag : Nat) (color : GFX_RGBA_Color) : List Nat :=
  [(flag % 256) ||| ((color.alpha % 256) &&& APA102_MAX_INTENSITY),
   color.blue % 256, color.green % 256, color.red % 256]

/-- `void apa102_xof(APA102_Transmission type)`: sends the byte `type`
`APA102_FRAME_SIZE` times (the frame size is the parameter `fs` here). -/
def apa102_xof (fs : Nat) (type : APA102_Transmission) : List Nat :=
  List.replicate fs (type.value % 256)

/-- The `APA102_SOF()` macro: `apa102_xof(APA102_Transmission_SOF)`. -/
def APA102_SOF (fs : Nat) : List Nat :=
  apa102_xof fs .SOF

/-- The `APA102_EOF()` macro: `apa102_xof(APA102_Transmission_EOF)`. -/
def APA102_EOF (fs : Nat) : List Nat :=
  apa102_xof fs .EOF

/-- `void apa102_init(void)`: `APA102_SOF()`, then for each of the `N`
configured LEDs `apa102_frame(APA102_ENABLE_FLAG,
&(GFX_RGBA_Color){APA102_MIN_INTENSITY, 0x00, 0x00, 0x00})` (a positional
initialiser: `red = APA102_MIN_INTENSITY`, the other fields zero), then
`APA102_EOF()`. -/
def apa102_init (N fs : Nat) : List Nat :=
  APA102_SOF fs ++
    (List.replicate N
      (apa102_frame APA102_ENABLE_FLAG
        ⟨APA102_MIN_INTENSITY, 0x00, 0x00, 0x00⟩)).flatten ++
  APA102_EOF fs

/-- `void apa102_led(const GFX_RGBA_Color *color)`:
`apa102_frame(APA102_ENABLE_FLAG | (0x3F & color->alpha), color)`. -/
def apa102_led (color : GFX_RGBA_Color) : List Nat :=
  apa102_frame (APA102_ENABLE_FLAG ||| (0x3F &&& (color.alpha % 256))) color

/-- `void apa102_leds(const GFX_RGBA_Color *color)`: `APA102_SOF()`, then for
each of the `N` configured LEDs
`apa102_frame(APA102_ENABLE_FLAG | (0x3F & color->alpha), color)`, then
`APA102_EOF()`. -/
def apa102_leds (N fs : Nat) (color : GFX_RGBA_Color) : List Nat :=
  APA102_SOF fs ++
    (List.replicate N
      (apa102_frame (APA102_ENABLE_FLAG ||| (0x3F &&& (color.alpha % 256)))
        color)).flatten ++
  APA102_EOF fs

/-- `void apa102_led_off(void)`: with `APA102_POWER_SAVING_AVAILABLE` defined
(`ps = true`) it sends `apa102_frame(APA102_SLEEP_FLAG,
&(GFX_RGBA_Color){APA102_MIN_INTENSITY, 0x00, 0x00, 0x00})`; otherwise it
sends `apa102_frame(APA102_START_FLAG,
&(GFX_RGBA_Color){APA102_MIN_INTENSITY, 0x00, 0x00, 0x00})`. -/
def apa102_led_off (ps : Bool) : List Nat :=
  if ps then
    apa102_frame APA102_SLEEP_FLAG ⟨APA102_MIN_INTENSITY, 0x00, 0x00, 0x00⟩
  else
    apa102_frame APA102_START_FLAG ⟨APA102_MIN_INTENSITY, 0x00, 0x00, 0x00⟩

/-- `void apa102_leds_off(void)`: `APA102_SOF()`, then `apa102_led_off()` once
for each of the `N` configured LEDs, then `APA102_EOF()`. -/
def apa102_leds_off (ps : Bool) (N fs : Nat) : List Nat :=
  APA102_SOF fs ++ (List.replicate N (apa102_led_off ps)).flatten ++
  APA102_EOF fs

/-- The transmission shape of the spec's framing invariant: the stream is
exactly one start-delimiter frame (`fs` bytes of `APA102_SOF_VALUE`), then
exactly `N` command frames (each produced by `apa102_frame`), then exactly
one end-delimiter frame (`fs` bytes of `APA102_EOF_VALUE`), and nothing
else. -/
def IsTransmission (N fs : Nat) (s : List Nat) : Prop :=
  ∃ frames : List (List Nat),
    s = List.replicate fs APA102_SOF_VALUE ++ frames.flatten ++
      List.replicate fs APA102_EOF_VALUE ∧
    frames.length = N ∧
    ∀ fr ∈ frames, ∃ flag c, fr = apa102_frame flag c

/-- Byte 0 of a command frame is marked: all bits of the flag byte the
operation used survive into it, and its top bit (0x80) is set, so it is
never equal to the start-delimiter marker byte. -/
def commandMarked (flag b : Nat) : Prop :=
  b &&& flag = flag ∧ b &&& 0x80 = 0x80

end APA102

namespace APA102

/-! Helper lemmas shared by the claim theorems. -/

theorem or_and_absorb (f m : Nat) : (f ||| m) &&& f = f := by
  apply Nat.eq_of_testBit_eq
  intro i
  rw [Nat.testBit_and, Nat.testBit_or]
  cases hf : f.testBit i <;> simp

theorem and_31_mod (a : Nat) : a &&& 0x1F = a % 32 :=
  Nat.and_pow_two_sub_one_eq_mod a 5

theorem and_63_left_mod (a : Nat) : 0x3F &&& a = a % 64 := by
  rw [Nat.and_comm]
  exact Nat.and_pow_two_sub_one_eq_mod a 6

theorem and_of_and_subset {b flag t : Nat} (h : b &&& flag = flag)
    (ht : flag &&& t = t) : b &&& t = t := by
  calc b &&& t = b &&& (flag &&& t) := by rw [ht]
    _ = b &&& flag &&& t := (Nat.and_assoc b flag t).symm
    _ = t := by rw [h, ht]

theorem flatten_replicate_length (N : Nat) (l : List Nat) :
    ((List.replicate N l).flatten).length = N * l.length := by
  induction N with
  | zero => simp
  | succ n ih =>
    rw [List.replicate_succ, List.flatten_cons, List.length_append, ih,
      Nat.succ_mul]
    omega

theorem flatten_replicate_getElem (l : List Nat) (hl : 0 < l.length) :
    ∀ N i : Nat, i < N →
      ((List.replicate N l).flatten)[l.length * i]? = l[0]? := by
  intro N
  induction N with
  | zero => intro i hi; omega
  | succ n ih =>
    intro i hi
    rw [List.replicate_succ, List.flatten_cons]
    match i with
    | 0 =>
      rw [Nat.mul_zero]
      exact List.getElem?_append_left hl
    | j + 1 =>
      have hle : l.length ≤ l.length * (j + 1) := by
        have := Nat.mul_le_mul_left l.length (Nat.succ_le_succ (Nat.zero_le j))
        simpa using this
      rw [List.getElem?_append_right hle]
      have hidx : l.length * (j + 1) - l.length = l.length * j := by
        rw [Nat.mul_succ]
        omega
      rw [hidx]
      exact ih j (by omega)

/-- Claim C1: for every flag byte `f` and every byte-valued color `c`,
`apa102_frame` transmits exactly the four bytes `f ||| (c.alpha &&& 0x1F)`
(the intensity being the color's `alpha` field), `c.blue`, `c.green`,
`c.red`, in this order; `apa102_frame` is modelled as a pure function of `f`
and `c`, so the output depends on nothing else. -/
theorem C1_frame_bytes (f : Nat) (c : GFX_RGBA_Color)
    (hf : f < 256) (hc : ColorBytes c) :
    apa102_frame f c = [f ||| (c.alpha &&& 0x1F), c.blue, c.green, c.red] := by
  obtain ⟨hr, hg, hb, ha⟩ := hc
  simp [apa102_frame, APA102_MAX_INTENSITY, Nat.mod_eq_of_lt hf,
    Nat.mod_eq_of_lt ha, Nat.mod_eq_of_lt hb, Nat.mod_eq_of_lt hg,
    Nat.mod_eq_of_lt hr]

/-- Concrete instance of the C1 theorem at flag `0xE0` and color
`{red 0x10, green 0x20, blue 0x30, alpha 0x25}`. -/
theorem C1_frame_bytes_witness :
    apa102_frame 0xE0 ⟨0x10, 0x20, 0x30, 0x25⟩ =
      [0xE0 ||| (0x25 &&& 0x1F), 0x30, 0x20, 0x10] :=
  C1_frame_bytes 0xE0 ⟨0x10, 0x20, 0x30, 0x25⟩ (by decide) (by decide)

/-- Claim C2, code behaviour at the claim's inputs: `apa102_led_off`
transmits `[flag, 0x00, 0x00, 0x01]` in both power-saving configurations —
the minimum intensity lands in the red byte (byte 3), because the positional
initialiser `{APA102_MIN_INTENSITY, 0x00, 0x00, 0x00}` fills the `red` field
of the color, and byte 0 carries no intensity bits — not the claimed frame
`[flag ||| 0x01, 0x00, 0x00, 0x00]`. -/
theorem C2_led_off_eval :
    apa102_led_off false = [0xE0, 0x00, 0x00, 0x01] ∧
    apa102_led_off true = [0xA0, 0x00, 0x00, 0x01] ∧
    apa102_led_off false ≠ [0xE0 ||| 0x01, 0x00, 0x00, 0x00] ∧
    apa102_led_off true ≠ [0xA0 ||| 0x01, 0x00, 0x00, 0x00] := by
  decide

/-- Claim C3, code behaviour: the per-slot frame transmitted by
`apa102_init` is `[0xE0, 0x00, 0x00, 0x01]` — byte 0 is the bare enable flag
with no intensity bits, and byte 3 (red) is `0x01` — not the claimed
`[0xE0 ||| 0x01, 0x00, 0x00, 0x00]`; shown here together with the whole
init stream for the default configuration `N = 1`, `fs = 4`. -/
theorem C3_init_frame_eval :
    apa102_frame APA102_ENABLE_FLAG ⟨APA102_MIN_INTENSITY, 0x00, 0x00, 0x00⟩ =
      [0xE0, 0x00, 0x00, 0x01] ∧
    apa102_frame APA102_ENABLE_FLAG ⟨APA102_MIN_INTENSITY, 0x00, 0x00, 0x00⟩ ≠
      [0xE0 ||| 0x01, 0x00, 0x00, 0x00] ∧
    apa102_init 1 4 =
      [0x00, 0x00, 0x00, 0x00, 0xE0, 0x00, 0x00, 0x01,
       0xFF, 0xFF, 0xFF, 0xFF] := by
  decide

/-- Claim C10: without power saving configured, `apa102_leds_off` transmits
byte for byte the same stream as `apa102_init`, for every chain length and
frame size, because the fallback `APA102_START_FLAG` equals
`APA102_ENABLE_FLAG` (both `0xE0`) and both pass the same literal color
`{APA102_MIN_INTENSITY, 0x00, 0x00, 0x00}` to `apa102_frame`. -/
theorem C10_leds_off_eq_init :
    APA102_START_FLAG = APA102_ENABLE_FLAG ∧
    ∀ N fs : Nat, apa102_leds_off false N fs = apa102_init N fs :=
  ⟨rfl, fun _ _ => rfl⟩

end APA102

namespace APA102

instance (flag b : Nat) : Decidable (commandMarked flag b) := by
  unfold commandMarked; infer_instance

theorem and_63_mod (a : Nat) : a &&& 0x3F = a % 64 :=
  Nat.and_pow_two_sub_one_eq_mod a 6

theorem or_lt_256 {x y : Nat} (hx : x < 256) (hy : y < 256) :
    x ||| y < 256 := by
  have h8 : (256 : Nat) = 2 ^ 8 := by norm_num
  rw [h8] at hx hy ⊢
  exact Nat.or_lt_two_pow hx hy

/-- Claim C4: for every color `c` and chain length `N`, the manual sequence
`APA102_SOF()`, then `N` calls of `apa102_led(c)`, then `APA102_EOF()`
produces a byte stream identical, byte for byte, to one `apa102_leds(c)`
call. -/
theorem C4_manual_eq_leds (c : GFX_RGBA_Color) (N fs : Nat)
    (hN : N < 256) (hfs : fs < 256) :
    APA102_SOF fs ++ (List.replicate N (apa102_led c)).flatten ++
      APA102_EOF fs = apa102_leds N fs c := rfl

/-- Concrete instance of the C4 theorem at `N = 3`, `fs = 4` and color
`{red 0x10, green 0x20, blue 0x30, alpha 0x05}`. -/
theorem C4_manual_eq_leds_witness :
    APA102_SOF 4 ++
      (List.replicate 3 (apa102_led ⟨0x10, 0x20, 0x30, 0x05⟩)).flatten ++
      APA102_EOF 4 = apa102_leds 3 4 ⟨0x10, 0x20, 0x30, 0x05⟩ :=
  C4_manual_eq_leds ⟨0x10, 0x20, 0x30, 0x05⟩ 3 4 (by decide) (by decide)

/-- Claim C5: each self-contained operation — `apa102_init`, `apa102_leds`
and `apa102_leds_off` (in either power-saving configuration) — transmits
exactly one start-delimiter frame, then exactly `N` command frames, then
exactly one end-delimiter frame, and nothing else. -/
theorem C5_framing (N fs : Nat) (c : GFX_RGBA_Color) (ps : Bool)
    (hN : N < 256) (hfs : fs < 256) :
    IsTransmission N fs (apa102_init N fs) ∧
    IsTransmission N fs (apa102_leds N fs c) ∧
    IsTransmission N fs (apa102_leds_off ps N fs) := by
  refine ⟨?_, ?_, ?_⟩
  · refine ⟨List.replicate N (apa102_frame APA102_ENABLE_FLAG
      ⟨APA102_MIN_INTENSITY, 0x00, 0x00, 0x00⟩), rfl,
      List.length_replicate .., ?_⟩
    intro fr hfr
    rw [List.eq_of_mem_replicate hfr]
    exact ⟨APA102_ENABLE_FLAG, ⟨APA102_MIN_INTENSITY, 0x00, 0x00, 0x00⟩, rfl⟩
  · refine ⟨List.replicate N (apa102_frame
      (APA102_ENABLE_FLAG ||| (0x3F &&& (c.alpha % 256))) c), rfl,
      List.length_replicate .., ?_⟩
    intro fr hfr
    rw [List.eq_of_mem_replicate hfr]
    exact ⟨APA102_ENABLE_FLAG ||| (0x3F &&& (c.alpha % 256)), c, rfl⟩
  · refine ⟨List.replicate N (apa102_led_off ps), rfl,
      List.length_replicate .., ?_⟩
    intro fr hfr
    rw [List.eq_of_mem_replicate hfr]
    cases ps
    · exact ⟨APA102_START_FLAG, ⟨APA102_MIN_INTENSITY, 0x00, 0x00, 0x00⟩, rfl⟩
    · exact ⟨APA102_SLEEP_FLAG, ⟨APA102_MIN_INTENSITY, 0x00, 0x00, 0x00⟩, rfl⟩

/-- Concrete instance of the C5 theorem at `N = 2`, `fs = 4`, power saving
enabled, and color `{red 0x10, green 0x20, blue 0x30, alpha 0x05}`. -/
theorem C5_framing_witness :
    IsTransmission 2 4 (apa102_init 2 4) ∧
    IsTransmission 2 4 (apa102_leds 2 4 ⟨0x10, 0x20, 0x30, 0x05⟩) ∧
    IsTransmission 2 4 (apa102_leds_off true 2 4) :=
  C5_framing 2 4 ⟨0x10, 0x20, 0x30, 0x05⟩ true (by decide) (by decide)

/-- Claim C6: the frame encoder's output depends on the intensity only
through its low five bits, and the `apa102_led` / `apa102_leds` paths only
through its low six bits: replacing the color's alpha by its masked value
leaves every transmitted byte unchanged. -/
theorem C6_intensity_mask (f : Nat) (c : GFX_RGBA_Color) (N fs : Nat) :
    apa102_frame f { c with alpha := c.alpha &&& 0x1F } = apa102_frame f c ∧
    apa102_led { c with alpha := c.alpha &&& 0x3F } = apa102_led c ∧
    apa102_leds N fs { c with alpha := c.alpha &&& 0x3F } =
      apa102_leds N fs c := by
  have h31 : ∀ a : Nat, ((a &&& 0x1F) % 256) &&& 0x1F = (a % 256) &&& 0x1F := by
    intro a
    simp only [and_31_mod]
    omega
  have h63 : ∀ a : Nat,
      0x3F &&& ((a &&& 0x3F) % 256) = 0x3F &&& (a % 256) := by
    intro a
    simp only [and_63_left_mod, and_63_mod]
    omega
  have h3163 : ∀ a : Nat,
      ((a &&& 0x3F) % 256) &&& 0x1F = (a % 256) &&& 0x1F := by
    intro a
    simp only [and_31_mod, and_63_mod]
    omega
  have hled : apa102_led { c with alpha := c.alpha &&& 0x3F } =
      apa102_led c := by
    simp only [apa102_led, apa102_frame, APA102_MAX_INTENSITY]
    rw [h63 c.alpha, h3163 c.alpha]
  refine ⟨?_, hled, ?_⟩
  · simp only [apa102_frame, APA102_MAX_INTENSITY]
    rw [h31 c.alpha]
  · show APA102_SOF fs ++
      (List.replicate N
        (apa102_led { c with alpha := c.alpha &&& 0x3F })).flatten ++
      APA102_EOF fs = _
    rw [hled]
    rfl

end APA102

namespace APA102

/-- Claim C7: `apa102_init` transmits exactly `2 * fs + N * 4` bytes —
`fs` start-marker bytes, then 4 bytes for each of the `N` slots, then `fs`
end-marker bytes. -/
theorem C7_init_length (N fs : Nat) (hN : N < 256) (hfs : fs < 256) :
    ∃ body : List Nat,
      apa102_init N fs = List.replicate fs APA102_SOF_VALUE ++ body ++
        List.replicate fs APA102_EOF_VALUE ∧
      body.length = N * 4 ∧
      (apa102_init N fs).length = 2 * fs + N * 4 := by
  refine ⟨(List.replicate N (apa102_frame APA102_ENABLE_FLAG
    ⟨APA102_MIN_INTENSITY, 0x00, 0x00, 0x00⟩)).flatten, rfl, ?_, ?_⟩
  · rw [flatten_replicate_length]
    rfl
  · simp only [apa102_init, APA102_SOF, APA102_EOF, apa102_xof,
      List.length_append, List.length_replicate, flatten_replicate_length]
    have hfour : (apa102_frame APA102_ENABLE_FLAG
        ⟨APA102_MIN_INTENSITY, 0x00, 0x00, 0x00⟩).length = 4 := rfl
    rw [hfour]
    omega

/-- Concrete instance of the C7 theorem at `N = 2`, `fs = 4`. -/
theorem C7_init_length_witness :
    ∃ body : List Nat,
      apa102_init 2 4 = List.replicate 4 APA102_SOF_VALUE ++ body ++
        List.replicate 4 APA102_EOF_VALUE ∧
      body.length = 2 * 4 ∧
      (apa102_init 2 4).length = 2 * 4 + 2 * 4 :=
  C7_init_length 2 4 (by decide) (by decide)

/-- Claim C8: `apa102_xof` with the SOF type transmits exactly `fs` bytes
each equal to the start marker `0x00`, and with the EOF type exactly `fs`
bytes each equal to the end marker `0xFF`. -/
theorem C8_xof_markers (fs : Nat) (hfs : fs < 256) :
    apa102_xof fs .SOF = List.replicate fs 0x00 ∧
    apa102_xof fs .EOF = List.replicate fs 0xFF :=
  ⟨rfl, rfl⟩

/-- Concrete instance of the C8 theorem at the default frame size `fs = 4`. -/
theorem C8_xof_markers_witness :
    apa102_xof 4 .SOF = List.replicate 4 0x00 ∧
    apa102_xof 4 .EOF = List.replicate 4 0xFF :=
  C8_xof_markers 4 (by decide)

theorem stream_cmd_getElem (fr : List Nat) (hfr : fr.length = 4)
    (N fs i : Nat) (hi : i < N) :
    (APA102_SOF fs ++ (List.replicate N fr).flatten ++
      APA102_EOF fs)[fs + 4 * i]? = fr[0]? := by
  have hlen : (APA102_SOF fs).length = fs := List.length_replicate ..
  rw [List.append_assoc,
    List.getElem?_append_right (by rw [hlen]; omega), hlen]
  have hidx : fs + 4 * i - fs = 4 * i := by omega
  rw [hidx]
  have hbody : ((List.replicate N fr).flatten).length = N * 4 := by
    rw [flatten_replicate_length, hfr]
  rw [List.getElem?_append_left (by rw [hbody]; omega)]
  have h4 : 4 * i = fr.length * i := by rw [hfr]
  rw [h4]
  exact flatten_replicate_getElem fr (by omega) N i hi

theorem enable_byte0_marked (c : GFX_RGBA_Color) :
    commandMarked APA102_ENABLE_FLAG
      (((APA102_ENABLE_FLAG ||| (0x3F &&& (c.alpha % 256))) % 256) |||
        ((c.alpha % 256) &&& APA102_MAX_INTENSITY)) := by
  have hflag : APA102_ENABLE_FLAG ||| (0x3F &&& (c.alpha % 256)) < 256 := by
    apply or_lt_256
    · decide
    · have h1 : 0x3F &&& (c.alpha % 256) ≤ 0x3F := Nat.and_le_left
      omega
  constructor
  · rw [Nat.mod_eq_of_lt hflag, Nat.or_assoc]
    exact or_and_absorb APA102_ENABLE_FLAG _
  · rw [Nat.mod_eq_of_lt hflag, Nat.or_assoc]
    exact and_of_and_subset (or_and_absorb APA102_ENABLE_FLAG _) (by decide)

/-- Claim C9: for every public operation, in either power-saving
configuration and for every input color, byte 0 of every transmitted
command frame keeps all the marker bits of the flag byte the operation used
(the flag survives the OR with the masked intensity) and has its top bit
set, distinguishing it from the start-delimiter marker byte. -/
theorem C9_command_byte0_marked (ps : Bool) (c : GFX_RGBA_Color)
    (N fs i : Nat) (hi : i < N) :
    (∃ b, (apa102_init N fs)[fs + 4 * i]? = some b ∧
      commandMarked APA102_ENABLE_FLAG b) ∧
    (∃ b, (apa102_leds N fs c)[fs + 4 * i]? = some b ∧
      commandMarked APA102_ENABLE_FLAG b) ∧
    (∃ b, (apa102_led c)[0]? = some b ∧ commandMarked APA102_ENABLE_FLAG b) ∧
    (∃ b, (apa102_led_off ps)[0]? = some b ∧
      commandMarked (if ps then APA102_SLEEP_FLAG else APA102_START_FLAG) b) ∧
    (∃ b, (apa102_leds_off ps N fs)[fs + 4 * i]? = some b ∧
      commandMarked (if ps then APA102_SLEEP_FLAG else APA102_START_FLAG) b) := by
  refine ⟨?_, ?_, ?_, ?_, ?_⟩
  · refine ⟨0xE0, ?_, by decide⟩
    simp only [apa102_init]
    rw [stream_cmd_getElem (apa102_frame APA102_ENABLE_FLAG
      ⟨APA102_MIN_INTENSITY, 0x00, 0x00, 0x00⟩) rfl N fs i hi]
    decide
  · refine ⟨((APA102_ENABLE_FLAG ||| (0x3F &&& (c.alpha % 256))) % 256) |||
      ((c.alpha % 256) &&& APA102_MAX_INTENSITY), ?_, enable_byte0_marked c⟩
    simp only [apa102_leds]
    rw [stream_cmd_getElem (apa102_frame
      (APA102_ENABLE_FLAG ||| (0x3F &&& (c.alpha % 256))) c) rfl N fs i hi]
    rfl
  · exact ⟨((APA102_ENABLE_FLAG ||| (0x3F &&& (c.alpha % 256))) % 256) |||
      ((c.alpha % 256) &&& APA102_MAX_INTENSITY), rfl, enable_byte0_marked c⟩
  · cases ps
    · exact ⟨0xE0, by decide, by decide⟩
    · exact ⟨0xA0, by decide, by decide⟩
  · cases ps
    · refine ⟨0xE0, ?_, by decide⟩
      simp only [apa102_leds_off]
      rw [stream_cmd_getElem (apa102_led_off false) rfl N fs i hi]
      decide
    · refine ⟨0xA0, ?_, by decide⟩
      simp only [apa102_leds_off]
      rw [stream_cmd_getElem (apa102_led_off true) rfl N fs i hi]
      decide

/-- Concrete instance of the C9 theorem: power saving enabled, color
`{red 0x10, green 0x20, blue 0x30, alpha 0xFF}`, `N = 2`, `fs = 4`,
command frame index `i = 1`. -/
theorem C9_command_byte0_marked_witness :
    (∃ b, (apa102_init 2 4)[4 + 4 * 1]? = some b ∧
      commandMarked APA102_ENABLE_FLAG b) ∧
    (∃ b, (apa102_leds 2 4 ⟨0x10, 0x20, 0x30, 0xFF⟩)[4 + 4 * 1]? = some b ∧
      commandMarked APA102_ENABLE_FLAG b) ∧
    (∃ b, (apa102_led ⟨0x10, 0x20, 0x30, 0xFF⟩)[0]? = some b ∧
      commandMarked APA102_ENABLE_FLAG b) ∧
    (∃ b, (apa102_led_off true)[0]? = some b ∧
      commandMarked (if true then APA102_SLEEP_FLAG else APA102_START_FLAG) b) ∧
    (∃ b, (apa102_leds_off true 2 4)[4 + 4 * 1]? = some b ∧
      commandMarked (if true then APA102_SLEEP_FLAG else APA102_START_FLAG) b) :=
  C9_command_byte0_marked true ⟨0x10, 0x20, 0x30, 0xFF⟩ 2 4 1 (by decide)

end APA102
